import Mathlib

/-!
The SNMP ColdStart trap emitter of `main.go`.

A shallow embedding of `func main` of the trap load generator.  The program
talks to the outside world (the SNMP session, standard output, the log
stream, the clock); the embedding turns this into explicit state passing:
`main` takes the parsed flags and a description of how the transport
behaves, and returns the list of externally visible events in program
order together with the way the process ended.

Go's `uint` is modelled by `Nat` with explicit reduction modulo `2 ^ w`
(`w = UintSize = 64`), `uint16` by reduction modulo `65536`, and
`time.Duration` (an `int64` count of nanoseconds) by `Int` with explicit
two's-complement wrapping.
-/

namespace SnmpLoad

/-! ## Machine integers -/

/-- Width of Go's `uint` on a 64-bit platform. -/
def UintSize : Nat := 64

/-- Conversion of an integer to an unsigned `w`-bit value. -/
def wrapUint (w : Nat) (x : Nat) : Nat := x % 2 ^ w

/-- Conversion `uint16(x)`. -/
def toUint16 (x : Nat) : Nat := x % 65536

/-- Conversion of an integer to `int64` (two's complement). -/
def wrapInt64 (x : Int) : Int := (x + 9223372036854775808) % 18446744073709551616 - 9223372036854775808

/-- Go's `time.Millisecond`, in nanoseconds. -/
def Millisecond : Int := 1000000

/-- Go's `time.Second`, in nanoseconds. -/
def Second : Int := 1000000000

/-! ## Data model -/

/-- Values of the six command-line flags after `flag.Parse()`. -/
structure Flags where
  target : String
  sourceIp : String
  port : Nat
  community : String
  count : Nat
  rate : Nat
  deriving DecidableEq

/-- Defaults of the six flags (lines 15-20). -/
def defaultFlags : Flags :=
  { target := "127.0.0.1", sourceIp := "127.0.0.1", port := 162,
    community := "public", count := 1, rate := 1 }

/-- Values of `gosnmp.SnmpVersion` used as session version. -/
inductive SnmpVersion where
  | Version1
  | Version2c
  | Version3
  deriving DecidableEq

/-- Values of `gosnmp.Asn1BER` relevant to the variable binding. -/
inductive Asn1BER where
  | Integer
  | OctetString
  | ObjectIdentifier
  | TimeTicks
  deriving DecidableEq

/-- Fields of `gosnmp.GoSNMP` set by the program (lines 27-35). -/
structure GoSNMP where
  Target : String
  Port : Nat
  Community : String
  Version : SnmpVersion
  Timeout : Int
  Retries : Nat
  deriving DecidableEq

/-- One variable binding, `gosnmp.SnmpPDU` (`Typ` is its field `Type`). -/
structure SnmpPDU where
  Name : String
  Typ : Asn1BER
  Value : String
  deriving DecidableEq

/-- Fields of `gosnmp.SnmpTrap` set by the program (lines 52-64). -/
structure SnmpTrap where
  Enterprise : String
  AgentAddress : String
  Variables : List SnmpPDU
  deriving DecidableEq

/-- Behaviour of the transport behind `Connect()` and `SendTrap()`:
the error returned by `Connect()` (`none` is `nil`), the error returned by
the `n`-th call of `SendTrap` (calls numbered from 0) and the time that
call takes, in nanoseconds. -/
structure Transport where
  connect : Option String
  sendTrap : Nat → Option String
  sendTime : Nat → Nat

/-- Externally visible actions of the program, in the order they happen. -/
inductive Event where
  | connect (snmp : GoSNMP)
  | fatalf (err : String)
  | announce (count : Nat)
  | sendTrap (pdu : SnmpTrap)
  | sleep (d : Int)
  | logSendFailed (i : Nat) (err : String)
  | summary (count rate : Nat) (duration : Int) (target : String) (port : Nat) (community : String)
  | close
  deriving DecidableEq

/-- How the process ended: `exit c` is termination with status `c`,
`panic` is a Go runtime panic (status 2), `running` means the bound on the
number of loop iterations was reached while the loop was still going. -/
inductive Outcome where
  | exit (code : Nat)
  | panic (msg : String)
  | running
  deriving DecidableEq

/-- Result of a run: the events so far and how the run ended. -/
structure Run where
  trace : List Event
  outcome : Outcome
  deriving DecidableEq

/-! ## The program -/

/-- Session configuration built from the flags (lines 27-35). -/
def mkSession (flags : Flags) : GoSNMP :=
  { Target := flags.target
    Port := toUint16 flags.port
    Community := flags.community
    Version := SnmpVersion.Version2c
    Timeout := wrapInt64 (wrapInt64 2 * Second)
    Retries := 0 }

/-- The ColdStart trap OID (line 47). -/
def coldStartTrapOID : String := ".1.3.6.1.6.3.1.1.5.1"

/-- The trap PDU built once before the loop (lines 52-64). -/
def mkTrapPDU (flags : Flags) : SnmpTrap :=
  { Enterprise := coldStartTrapOID
    AgentAddress := flags.sourceIp
    Variables := [{ Name := ".1.3.6.1.6.3.1.1.4.1.0", Typ := Asn1BER.ObjectIdentifier, Value := coldStartTrapOID }] }

/-- The argument of `time.Sleep` in the loop:
`time.Duration(sleep) * time.Millisecond` (line 76). -/
def sleepDuration (sleep : Nat) : Int := wrapInt64 (wrapInt64 sleep * Millisecond)

/-- Mutable state of the send loop: the counter `i`, the number of
`SendTrap` calls made so far, the time elapsed since `startTime`
(nanoseconds) and the events so far. -/
structure LoopState where
  i : Nat
  calls : Nat
  clock : Int
  trace : List Event
  deriving DecidableEq

/-- One pass through `for ...; i <= count; i++` (lines 72-81) on `w`-bit
unsigned integers: `none` when the condition fails, else the state after
the body and the increment.  `time.Sleep` returns at once for a duration
that is not positive. -/
def loopStep (w : Nat) (count : Nat) (pdu : SnmpTrap) (sleep : Nat) (tr : Transport)
    (s : LoopState) : Option LoopState :=
  if s.i ≤ count then
    let err := tr.sendTrap s.calls
    let t1 := s.trace ++ [Event.sendTrap pdu, Event.sleep (sleepDuration sleep)]
    let t2 := match err with
      | none => t1
      | some e => t1 ++ [Event.logSendFailed s.i e]
    some { i := wrapUint w (s.i + 1)
           calls := s.calls + 1
           clock := s.clock + (tr.sendTime s.calls : Int) + max (sleepDuration sleep) 0
           trace := t2 }
  else none

/-- The send loop run for at most `fuel` iterations.  The Boolean tells
whether the loop condition was found false (the loop exited). -/
def runLoop (w : Nat) (count : Nat) (pdu : SnmpTrap) (sleep : Nat) (tr : Transport) :
    Nat → LoopState → LoopState × Bool
  | 0, s => (s, false)
  | fuel + 1, s =>
    match loopStep w count pdu sleep tr s with
    | none => (s, true)
    | some s' => runLoop w count pdu sleep tr fuel s'

/-- State on entry to the loop: `i := uint(1)`, the clock at `startTime`. -/
def loopInit (w : Nat) (trace : List Event) : LoopState :=
  { i := wrapUint w 1, calls := 0, clock := 0, trace := trace }

/-- The program with `w`-bit `uint`, the loop bounded by `fuel` iterations. -/
def mainW (w : Nat) (flags : Flags) (tr : Transport) (fuel : Nat) : Run :=
  let snmp := mkSession flags
  let t0 := [Event.connect snmp]
  match tr.connect with
  | some err => { trace := t0 ++ [Event.fatalf err], outcome := Outcome.exit 1 }
  | none =>
    let trapPDU := mkTrapPDU flags
    let t1 := t0 ++ [Event.announce flags.count]
    if flags.rate = 0 then
      { trace := t1 ++ [Event.close], outcome := Outcome.panic "runtime error: integer divide by zero" }
    else
      let sleep := wrapUint w 1000 / flags.rate
      match runLoop w flags.count trapPDU sleep tr fuel (loopInit w t1) with
      | (s, false) => { trace := s.trace, outcome := Outcome.running }
      | (s, true) =>
        { trace := s.trace ++
            [Event.summary flags.count flags.rate s.clock flags.target flags.port flags.community,
             Event.close]
          outcome := Outcome.exit 0 }

/-- The program `func main` on a 64-bit platform. -/
def main (flags : Flags) (tr : Transport) (fuel : Nat) : Run :=
  mainW UintSize flags tr fuel

/-! ## Observations on a trace -/

/-- Payloads of the `SendTrap` calls of a trace, in order. -/
def sentPayloads (es : List Event) : List SnmpTrap :=
  es.filterMap fun e => match e with
    | Event.sendTrap p => some p
    | _ => none

/-- Durations of the `time.Sleep` calls of a trace, in order. -/
def sleeps (es : List Event) : List Int :=
  es.filterMap fun e => match e with
    | Event.sleep d => some d
    | _ => none

/-- Iteration indices of the logged send failures of a trace, in order. -/
def loggedIndices (es : List Event) : List Nat :=
  es.filterMap fun e => match e with
    | Event.logSendFailed i _ => some i
    | _ => none

/-- Ports of the sessions on which `Connect()` is called, in order. -/
def sessionPorts (es : List Event) : List Nat :=
  es.filterMap fun e => match e with
    | Event.connect snmp => some snmp.Port
    | _ => none

/-- Ports reported by the summary lines of a trace, in order. -/
def summaryPorts (es : List Event) : List Nat :=
  es.filterMap fun e => match e with
    | Event.summary _ _ _ _ port _ => some port
    | _ => none

/-- Whether an event is the announcement line printed before the loop. -/
def Event.isAnnounce : Event → Bool
  | Event.announce _ => true
  | _ => false

/-- Whether an event is the summary line. -/
def Event.isSummary : Event → Bool
  | Event.summary _ _ _ _ _ _ => true
  | _ => false

/-- Whether an event is the closing of the session. -/
def Event.isClose : Event → Bool
  | Event.close => true
  | _ => false

/-- The time the loop has taken when its `count` iterations are done:
the value `time.Since(startTime)` has right after the last iteration. -/
def elapsedLoopTime (flags : Flags) (tr : Transport) : Int :=
  (runLoop UintSize flags.count (mkTrapPDU flags) (wrapUint UintSize 1000 / flags.rate) tr
    flags.count (loopInit UintSize [])).1.clock

/-- A transport on which everything succeeds and takes no time. -/
def okTransport : Transport :=
  { connect := none, sendTrap := fun _ => none, sendTime := fun _ => 0 }

/-- A transport on which `Connect()` succeeds and every `SendTrap` fails. -/
def lossyTransport : Transport :=
  { connect := none, sendTrap := fun _ => some "request timeout", sendTime := fun _ => 0 }

/-- A transport on which `Connect()` fails. -/
def deadTransport : Transport :=
  { connect := some "dial udp: lookup failed", sendTrap := fun _ => none, sendTime := fun _ => 0 }

/-- Flags with the largest value `-count` accepts on a 64-bit platform. -/
def maxCountFlags : Flags := { defaultFlags with count := 18446744073709551615 }

/-- Flags with `-rate 0`. -/
def zeroRateFlags : Flags := { defaultFlags with rate := 0 }

/-- Flags with `-rate 3`, whose delay `1000/3` is truncated. -/
def rate3Flags : Flags := { defaultFlags with rate := 3 }

/-- Flags with `-port 65698`, which does not fit in `uint16`. -/
def bigPortFlags : Flags := { defaultFlags with port := 65698 }

/-- Flags with `-count 3 -rate 4`. -/
def smallFlags : Flags := { defaultFlags with count := 3, rate := 4 }

/-! ## Closed form of the loop -/

/-- Events of the iteration that makes the `j`-th `SendTrap` call
(`j` from 0): the send, the sleep and, if the send failed, the log line
with the value of the loop counter. -/
def iterEvents (w : Nat) (pdu : SnmpTrap) (sleep : Nat) (tr : Transport) (j : Nat) : List Event :=
  [Event.sendTrap pdu, Event.sleep (sleepDuration sleep)] ++
    match tr.sendTrap j with
    | none => []
    | some e => [Event.logSendFailed (wrapUint w (j + 1)) e]

/-- Events of the first `k` iterations. -/
def loopEvents (w : Nat) (pdu : SnmpTrap) (sleep : Nat) (tr : Transport) : Nat → List Event
  | 0 => []
  | k + 1 => loopEvents w pdu sleep tr k ++ iterEvents w pdu sleep tr k

/-- Time taken by the first `k` iterations, in nanoseconds. -/
def elapsedAfter (sleep : Nat) (tr : Transport) : Nat → Int
  | 0 => 0
  | k + 1 => elapsedAfter sleep tr k + (tr.sendTime k : Int) + max (sleepDuration sleep) 0

/-- The loop state after `k` iterations, started with trace `pre`. -/
def stateAfter (w : Nat) (pdu : SnmpTrap) (sleep : Nat) (tr : Transport) (pre : List Event)
    (k : Nat) : LoopState :=
  { i := wrapUint w (k + 1), calls := k, clock := elapsedAfter sleep tr k,
    trace := pre ++ loopEvents w pdu sleep tr k }

theorem wrapUint_succ (w a : Nat) : wrapUint w (wrapUint w a + 1) = wrapUint w (a + 1) := by
  unfold wrapUint
  exact Nat.mod_add_mod a (2 ^ w) 1

theorem wrapUint_le_max (w a : Nat) : wrapUint w a ≤ 2 ^ w - 1 := by
  unfold wrapUint
  have h : a % 2 ^ w < 2 ^ w := Nat.mod_lt _ (Nat.pos_pow_of_pos w (by decide))
  omega

theorem wrapUint_of_lt {w a : Nat} (h : a < 2 ^ w) : wrapUint w a = a := by
  unfold wrapUint
  exact Nat.mod_eq_of_lt h

theorem loopStep_stateAfter (w count : Nat) (pdu : SnmpTrap) (sleep : Nat) (tr : Transport)
    (pre : List Event) (k : Nat) (h : wrapUint w (k + 1) ≤ count) :
    loopStep w count pdu sleep tr (stateAfter w pdu sleep tr pre k)
      = some (stateAfter w pdu sleep tr pre (k + 1)) := by
  unfold loopStep
  simp only [stateAfter, h, if_true, wrapUint_succ, loopEvents, elapsedAfter, iterEvents]
  cases tr.sendTrap k <;> simp

theorem loopStep_exit (w count : Nat) (pdu : SnmpTrap) (sleep : Nat) (tr : Transport)
    (s : LoopState) (h : count < s.i) : loopStep w count pdu sleep tr s = none := by
  unfold loopStep
  simp [Nat.not_le.mpr h]

theorem runLoop_add (w count : Nat) (pdu : SnmpTrap) (sleep : Nat) (tr : Transport)
    (k m : Nat) (s : LoopState) :
    runLoop w count pdu sleep tr (k + m) s
      = if (runLoop w count pdu sleep tr k s).2 then runLoop w count pdu sleep tr k s
        else runLoop w count pdu sleep tr m (runLoop w count pdu sleep tr k s).1 := by
  induction k generalizing s with
  | zero => simp [runLoop]
  | succ k ih =>
    rw [Nat.add_right_comm]
    simp only [runLoop]
    cases hstep : loopStep w count pdu sleep tr s with
    | none => simp
    | some s' => simpa using ih s'

/-- While the counter stays within `count`, `k` units of fuel give exactly
`k` iterations and the loop is still running. -/
theorem runLoop_running (w count : Nat) (pdu : SnmpTrap) (sleep : Nat) (tr : Transport)
    (pre : List Event) (k : Nat) (h : ∀ j, j < k → wrapUint w (j + 1) ≤ count) :
    runLoop w count pdu sleep tr k (loopInit w pre)
      = (stateAfter w pdu sleep tr pre k, false) := by
  induction k with
  | zero => simp [runLoop, loopInit, stateAfter, loopEvents, elapsedAfter]
  | succ k ih =>
    have hk := ih (fun j hj => h j (Nat.lt_succ_of_lt hj))
    rw [runLoop_add, hk]
    simp [runLoop, loopStep_stateAfter w count pdu sleep tr pre k (h k (Nat.lt_succ_self k))]

/-- For `count < 2 ^ w - 1` the loop exits after exactly `count`
iterations, given more than `count` units of fuel. -/
theorem runLoop_exits (w count : Nat) (pdu : SnmpTrap) (sleep : Nat) (tr : Transport)
    (pre : List Event) (fuel : Nat) (hc : count < 2 ^ w - 1) (hf : count < fuel) :
    runLoop w count pdu sleep tr fuel (loopInit w pre)
      = (stateAfter w pdu sleep tr pre count, true) := by
  have hrun := runLoop_running w count pdu sleep tr pre count (fun j hj => by
    rw [wrapUint_of_lt (by omega)]; omega)
  obtain ⟨m, rfl⟩ : ∃ m, fuel = count + (m + 1) := ⟨fuel - count - 1, by omega⟩
  rw [runLoop_add, hrun]
  have hi : count < (stateAfter w pdu sleep tr pre count).i := by
    simp only [stateAfter]
    rw [wrapUint_of_lt (by omega)]; omega
  simp [runLoop, loopStep_exit w count pdu sleep tr _ hi]

/-- For `count = 2 ^ w - 1` the loop is still running after any number of
iterations. -/
theorem runLoop_never_exits (w : Nat) (pdu : SnmpTrap) (sleep : Nat) (tr : Transport)
    (pre : List Event) (fuel : Nat) :
    runLoop w (2 ^ w - 1) pdu sleep tr fuel (loopInit w pre)
      = (stateAfter w pdu sleep tr pre fuel, false) :=
  runLoop_running w (2 ^ w - 1) pdu sleep tr pre fuel (fun j _ => wrapUint_le_max w (j + 1))

/-! ## Arithmetic of the delay -/

theorem wrapUint_1000 : wrapUint UintSize 1000 = 1000 := by
  decide

theorem sleepDuration_of_le {sleep : Nat} (h : sleep ≤ 1000) :
    sleepDuration sleep = (sleep : Int) * Millisecond := by
  unfold sleepDuration wrapInt64 Millisecond
  omega

theorem delay_le (rate : Nat) : 1000 / rate ≤ 1000 := Nat.div_le_self 1000 rate

theorem sleepDuration_delay (rate : Nat) :
    sleepDuration (1000 / rate) = ((1000 / rate : Nat) : Int) * Millisecond :=
  sleepDuration_of_le (delay_le rate)

theorem sleepDuration_delay_nonneg (rate : Nat) : 0 ≤ sleepDuration (1000 / rate) := by
  rw [sleepDuration_delay]
  unfold Millisecond
  positivity

theorem elapsedAfter_eq_sum (rate : Nat) (tr : Transport) (k : Nat) :
    elapsedAfter (1000 / rate) tr k
      = ∑ j in Finset.range k, ((tr.sendTime j : Int) + ((1000 / rate : Nat) : Int) * Millisecond) := by
  induction k with
  | zero => simp [elapsedAfter]
  | succ k ih =>
    rw [Finset.sum_range_succ, ← ih]
    simp only [elapsedAfter]
    rw [max_eq_left (sleepDuration_delay_nonneg rate), sleepDuration_delay]
    ring

theorem elapsedAfter_ge (rate : Nat) (tr : Transport) (k : Nat) :
    (k : Int) * (((1000 / rate : Nat) : Int) * Millisecond) ≤ elapsedAfter (1000 / rate) tr k := by
  induction k with
  | zero => simp [elapsedAfter]
  | succ k ih =>
    simp only [elapsedAfter]
    rw [max_eq_left (sleepDuration_delay_nonneg rate), sleepDuration_delay]
    have h : (0 : Int) ≤ (tr.sendTime k : Int) := Int.ofNat_nonneg _
    push_cast
    push_cast at ih
    linarith

/-! ## Closed form of the program -/

theorem main_connect_failed (flags : Flags) (tr : Transport) (fuel : Nat) (err : String)
    (h : tr.connect = some err) :
    main flags tr fuel
      = { trace := [Event.connect (mkSession flags), Event.fatalf err], outcome := Outcome.exit 1 } := by
  simp [main, mainW, h]

theorem main_rate_zero (flags : Flags) (tr : Transport) (fuel : Nat)
    (hc : tr.connect = none) (hr : flags.rate = 0) :
    main flags tr fuel
      = { trace := [Event.connect (mkSession flags), Event.announce flags.count, Event.close],
          outcome := Outcome.panic "runtime error: integer divide by zero" } := by
  simp [main, mainW, hc, hr]

/-- A run in which the loop exits: connect, announcement, `count`
iterations, summary, close, exit status 0. -/
theorem main_exits (flags : Flags) (tr : Transport) (fuel : Nat)
    (hc : tr.connect = none) (hr : flags.rate ≠ 0)
    (hn : flags.count < 2 ^ UintSize - 1) (hf : flags.count < fuel) :
    main flags tr fuel
      = { trace := [Event.connect (mkSession flags), Event.announce flags.count]
            ++ loopEvents UintSize (mkTrapPDU flags) (1000 / flags.rate) tr flags.count
            ++ [Event.summary flags.count flags.rate (elapsedAfter (1000 / flags.rate) tr flags.count)
                  flags.target flags.port flags.community, Event.close]
          outcome := Outcome.exit 0 } := by
  simp only [main, mainW, hc, hr, if_false, wrapUint_1000]
  rw [runLoop_exits UintSize flags.count _ _ tr _ fuel hn hf]
  simp [stateAfter]

/-- A run in which the loop is still going after `fuel` iterations. -/
theorem main_running (flags : Flags) (tr : Transport) (fuel : Nat)
    (hc : tr.connect = none) (hr : flags.rate ≠ 0)
    (h : ∀ j, j < fuel → wrapUint UintSize (j + 1) ≤ flags.count) :
    main flags tr fuel
      = { trace := [Event.connect (mkSession flags), Event.announce flags.count]
            ++ loopEvents UintSize (mkTrapPDU flags) (1000 / flags.rate) tr fuel
          outcome := Outcome.running } := by
  simp only [main, mainW, hc, hr, if_false, wrapUint_1000]
  rw [runLoop_running UintSize flags.count _ _ tr _ fuel h]
  simp [stateAfter]

theorem elapsedLoopTime_eq (flags : Flags) (tr : Transport) (hn : flags.count < 2 ^ UintSize) :
    elapsedLoopTime flags tr = elapsedAfter (1000 / flags.rate) tr flags.count := by
  unfold elapsedLoopTime
  rw [wrapUint_1000, runLoop_running UintSize flags.count _ _ tr _ flags.count (fun j hj => by
    rw [wrapUint_of_lt (by omega)]; omega)]
  simp [stateAfter]

/-! ## Observations on the events of the loop -/

theorem sentPayloads_append (a b : List Event) :
    sentPayloads (a ++ b) = sentPayloads a ++ sentPayloads b := by
  simp [sentPayloads]

theorem sleeps_append (a b : List Event) : sleeps (a ++ b) = sleeps a ++ sleeps b := by
  simp [sleeps]

theorem loggedIndices_append (a b : List Event) :
    loggedIndices (a ++ b) = loggedIndices a ++ loggedIndices b := by
  simp [loggedIndices]

theorem sentPayloads_loopEvents (w : Nat) (pdu : SnmpTrap) (sleep : Nat) (tr : Transport) (k : Nat) :
    sentPayloads (loopEvents w pdu sleep tr k) = List.replicate k pdu := by
  induction k with
  | zero => simp [loopEvents, sentPayloads]
  | succ k ih =>
    rw [loopEvents, sentPayloads_append, ih, List.replicate_succ']
    cases h : tr.sendTrap k <;> simp [iterEvents, sentPayloads, h]

theorem sleeps_loopEvents (w : Nat) (pdu : SnmpTrap) (sleep : Nat) (tr : Transport) (k : Nat) :
    sleeps (loopEvents w pdu sleep tr k) = List.replicate k (sleepDuration sleep) := by
  induction k with
  | zero => simp [loopEvents, sleeps]
  | succ k ih =>
    rw [loopEvents, sleeps_append, ih, List.replicate_succ']
    cases h : tr.sendTrap k <;> simp [iterEvents, sleeps, h]

theorem loggedIndices_loopEvents (w : Nat) (pdu : SnmpTrap) (sleep : Nat) (tr : Transport) (k : Nat) :
    loggedIndices (loopEvents w pdu sleep tr k)
      = (List.range k).filterMap fun j => (tr.sendTrap j).map fun _ => wrapUint w (j + 1) := by
  induction k with
  | zero => simp [loopEvents, loggedIndices]
  | succ k ih =>
    rw [loopEvents, loggedIndices_append, ih, List.range_succ, List.filterMap_append]
    cases h : tr.sendTrap k <;> simp [iterEvents, loggedIndices, h]

theorem filter_isSummary_loopEvents (w : Nat) (pdu : SnmpTrap) (sleep : Nat) (tr : Transport)
    (k : Nat) : (loopEvents w pdu sleep tr k).filter Event.isSummary = [] := by
  induction k with
  | zero => simp [loopEvents]
  | succ k ih =>
    rw [loopEvents, List.filter_append, ih]
    cases h : tr.sendTrap k <;> simp [iterEvents, Event.isSummary, h]

theorem filter_isClose_loopEvents (w : Nat) (pdu : SnmpTrap) (sleep : Nat) (tr : Transport)
    (k : Nat) : (loopEvents w pdu sleep tr k).filter Event.isClose = [] := by
  induction k with
  | zero => simp [loopEvents]
  | succ k ih =>
    rw [loopEvents, List.filter_append, ih]
    cases h : tr.sendTrap k <;> simp [iterEvents, Event.isClose, h]

theorem filter_isAnnounce_loopEvents (w : Nat) (pdu : SnmpTrap) (sleep : Nat) (tr : Transport)
    (k : Nat) : (loopEvents w pdu sleep tr k).filter Event.isAnnounce = [] := by
  induction k with
  | zero => simp [loopEvents]
  | succ k ih =>
    rw [loopEvents, List.filter_append, ih]
    cases h : tr.sendTrap k <;> simp [iterEvents, Event.isAnnounce, h]

theorem sessionPorts_loopEvents (w : Nat) (pdu : SnmpTrap) (sleep : Nat) (tr : Transport)
    (k : Nat) : sessionPorts (loopEvents w pdu sleep tr k) = [] := by
  induction k with
  | zero => simp [loopEvents, sessionPorts]
  | succ k ih =>
    unfold sessionPorts at ih ⊢
    rw [loopEvents, List.filterMap_append, ih]
    cases h : tr.sendTrap k <;> simp [iterEvents, h]

theorem summaryPorts_loopEvents (w : Nat) (pdu : SnmpTrap) (sleep : Nat) (tr : Transport)
    (k : Nat) : summaryPorts (loopEvents w pdu sleep tr k) = [] := by
  induction k with
  | zero => simp [loopEvents, summaryPorts]
  | succ k ih =>
    unfold summaryPorts at ih ⊢
    rw [loopEvents, List.filterMap_append, ih]
    cases h : tr.sendTrap k <;> simp [iterEvents, h]

/-- Every run that gets past `Connect()` with a non-zero rate has
performed some number `k` of iterations and either is still in the loop or
has left it. -/
theorem main_trace_cases (flags : Flags) (tr : Transport) (fuel : Nat)
    (hc : tr.connect = none) (hr : flags.rate ≠ 0) :
    ∃ k, main flags tr fuel
        = { trace := [Event.connect (mkSession flags), Event.announce flags.count]
              ++ loopEvents UintSize (mkTrapPDU flags) (1000 / flags.rate) tr k
            outcome := Outcome.running }
      ∨ main flags tr fuel
        = { trace := [Event.connect (mkSession flags), Event.announce flags.count]
              ++ loopEvents UintSize (mkTrapPDU flags) (1000 / flags.rate) tr k
              ++ [Event.summary flags.count flags.rate (elapsedAfter (1000 / flags.rate) tr k)
                    flags.target flags.port flags.community, Event.close]
            outcome := Outcome.exit 0 } := by
  by_cases hn : flags.count < 2 ^ UintSize - 1
  · by_cases hf : flags.count < fuel
    · exact ⟨flags.count, Or.inr (main_exits flags tr fuel hc hr hn hf)⟩
    · refine ⟨fuel, Or.inl (main_running flags tr fuel hc hr (fun j hj => ?_))⟩
      rw [wrapUint_of_lt (by omega)]; omega
  · refine ⟨fuel, Or.inl (main_running flags tr fuel hc hr (fun j _ => ?_))⟩
    exact le_trans (wrapUint_le_max UintSize (j + 1)) (by omega)

theorem main_never_exits (flags : Flags) (tr : Transport) (fuel : Nat)
    (hc : tr.connect = none) (hr : flags.rate ≠ 0) (hn : flags.count = 2 ^ UintSize - 1) :
    main flags tr fuel
      = { trace := [Event.connect (mkSession flags), Event.announce flags.count]
            ++ loopEvents UintSize (mkTrapPDU flags) (1000 / flags.rate) tr fuel
          outcome := Outcome.running } :=
  main_running flags tr fuel hc hr (fun j _ => hn ▸ wrapUint_le_max UintSize (j + 1))

theorem maxCountFlags_count : maxCountFlags.count = 2 ^ UintSize - 1 := by
  decide

/-! ## Runs whose loop exits (`count < 2 ^ 64 - 1`) -/

/-- With `count < 2 ^ 64 - 1`, a non-zero rate and a successful connect,
`SendTrap` is called exactly `count` times, whatever the sends return. -/
theorem sends_eq_count (flags : Flags) (tr : Transport) (fuel : Nat)
    (hc : tr.connect = none) (hr : flags.rate ≠ 0)
    (hn : flags.count < 2 ^ UintSize - 1) (hf : flags.count < fuel) :
    (main flags tr fuel).outcome = Outcome.exit 0
      ∧ sentPayloads (main flags tr fuel).trace = List.replicate flags.count (mkTrapPDU flags) := by
  rw [main_exits flags tr fuel hc hr hn hf]
  have h1 : sentPayloads [Event.connect (mkSession flags), Event.announce flags.count] = [] := rfl
  have h2 : ∀ d, sentPayloads [Event.summary flags.count flags.rate d flags.target flags.port
      flags.community, Event.close] = [] := fun _ => rfl
  refine ⟨rfl, ?_⟩
  simp only [sentPayloads_append, sentPayloads_loopEvents, h1, h2, List.nil_append, List.append_nil]

/-- With `count < 2 ^ 64 - 1`, the loop sleeps exactly `count` times, each
time for `1000 / rate` milliseconds. -/
theorem sleeps_eq_count (flags : Flags) (tr : Transport) (fuel : Nat)
    (hc : tr.connect = none) (hr : flags.rate ≠ 0)
    (hn : flags.count < 2 ^ UintSize - 1) (hf : flags.count < fuel) :
    sleeps (main flags tr fuel).trace
      = List.replicate flags.count (((1000 / flags.rate : Nat) : Int) * Millisecond) := by
  rw [main_exits flags tr fuel hc hr hn hf]
  have h1 : sleeps [Event.connect (mkSession flags), Event.announce flags.count] = [] := rfl
  have h2 : ∀ d, sleeps [Event.summary flags.count flags.rate d flags.target flags.port
      flags.community, Event.close] = [] := fun _ => rfl
  simp only [sleeps_append, sleeps_loopEvents, h1, h2, List.nil_append, List.append_nil,
    sleepDuration_delay]

/-- With `count < 2 ^ 64 - 1`, the logged indices are the iterations
`j + 1` in `1..count` whose send returned an error, in increasing order. -/
theorem loggedIndices_eq_failed (flags : Flags) (tr : Transport) (fuel : Nat)
    (hc : tr.connect = none) (hr : flags.rate ≠ 0)
    (hn : flags.count < 2 ^ UintSize - 1) (hf : flags.count < fuel) :
    loggedIndices (main flags tr fuel).trace
      = ((List.range flags.count).filter fun j => (tr.sendTrap j).isSome).map (· + 1) := by
  rw [main_exits flags tr fuel hc hr hn hf]
  simp only [loggedIndices_append, loggedIndices_loopEvents]
  have h1 : loggedIndices [Event.connect (mkSession flags), Event.announce flags.count] = [] := rfl
  have h2 : ∀ d, loggedIndices [Event.summary flags.count flags.rate d flags.target flags.port
      flags.community, Event.close] = [] := fun _ => rfl
  rw [h1, h2, List.nil_append, List.append_nil]
  have hlt : ∀ k, k ≤ flags.count →
      ((List.range k).filterMap fun j => (tr.sendTrap j).map fun _ => wrapUint UintSize (j + 1))
        = ((List.range k).filter fun j => (tr.sendTrap j).isSome).map (· + 1) := by
    intro k
    induction k with
    | zero => intro _; simp
    | succ k ih =>
      intro hk
      rw [List.range_succ, List.filterMap_append, List.filter_append, List.map_append,
        ih (Nat.le_of_succ_le hk)]
      have hw : wrapUint UintSize (k + 1) = k + 1 := wrapUint_of_lt (by omega)
      cases h : tr.sendTrap k <;> simp [h, hw]
  exact hlt flags.count (le_refl _)

theorem loggedIndices_getLast_of_failed (w : Nat) (pdu : SnmpTrap) (sleep : Nat) (tr : Transport)
    (k : Nat) (e : String) (h : tr.sendTrap k = some e) :
    (loggedIndices (loopEvents w pdu sleep tr (k + 1))).getLast? = some (wrapUint w (k + 1)) := by
  have hi : loggedIndices (iterEvents w pdu sleep tr k) = [wrapUint w (k + 1)] := by
    simp [iterEvents, loggedIndices, h]
  rw [loopEvents, loggedIndices_append, hi]
  simp

/-- With `count = 2 ^ 64 - 1`, after `k + 1` iterations the loop is still
running, and if the last send failed the last logged line carries the
counter value `(k + 1) mod 2 ^ 64`. -/
theorem main_never_exits_logs (flags : Flags) (tr : Transport) (k : Nat) (e : String)
    (hc : tr.connect = none) (hr : flags.rate ≠ 0) (hn : flags.count = 2 ^ UintSize - 1)
    (h : tr.sendTrap k = some e) :
    (main flags tr (k + 1)).outcome = Outcome.running
      ∧ (loggedIndices (main flags tr (k + 1)).trace).getLast? = some (wrapUint UintSize (k + 1)) := by
  rw [main_never_exits flags tr (k + 1) hc hr hn]
  have h1 : loggedIndices [Event.connect (mkSession flags), Event.announce flags.count] = [] := rfl
  refine ⟨rfl, ?_⟩
  simp only [loggedIndices_append, h1, List.nil_append]
  exact loggedIndices_getLast_of_failed UintSize _ _ tr k e h

theorem sessionPorts_append (a b : List Event) :
    sessionPorts (a ++ b) = sessionPorts a ++ sessionPorts b := by
  simp [sessionPorts]

theorem summaryPorts_append (a b : List Event) :
    summaryPorts (a ++ b) = summaryPorts a ++ summaryPorts b := by
  simp [summaryPorts]

/-! ## Properties of the specification -/

/-- C1, at the failing input `-count 18446744073709551615`: however many
iterations the loop is given, it is still running and has called `SendTrap`
once per iteration, so the number of calls passes `count` (after
`count + 1` iterations it is `count + 1`). -/
theorem max_count_sends_exceed_count :
    (∀ fuel, (main maxCountFlags okTransport fuel).outcome = Outcome.running
      ∧ (sentPayloads (main maxCountFlags okTransport fuel).trace).length = fuel)
    ∧ maxCountFlags.count
        < (sentPayloads (main maxCountFlags okTransport (maxCountFlags.count + 1)).trace).length := by
  have key : ∀ fuel, (main maxCountFlags okTransport fuel).outcome = Outcome.running
      ∧ (sentPayloads (main maxCountFlags okTransport fuel).trace).length = fuel := by
    intro fuel
    rw [main_never_exits maxCountFlags okTransport fuel rfl (by decide) maxCountFlags_count]
    have h1 : sentPayloads [Event.connect (mkSession maxCountFlags),
        Event.announce maxCountFlags.count] = [] := rfl
    refine ⟨rfl, ?_⟩
    simp only [sentPayloads_append, sentPayloads_loopEvents, h1, List.nil_append,
      List.length_replicate]
  refine ⟨key, ?_⟩
  rw [(key (maxCountFlags.count + 1)).2]
  exact Nat.lt_succ_self _

/-- C2, at the failing input `-count 18446744073709551615 -rate 1`: after
`fuel` iterations the loop has slept `fuel` times for 1000 ms and is still
running, so the number of sleeps passes `count`. -/
theorem max_count_sleeps_exceed_count :
    (∀ fuel, (main maxCountFlags okTransport fuel).outcome = Outcome.running
      ∧ sleeps (main maxCountFlags okTransport fuel).trace
          = List.replicate fuel (1000 * Millisecond))
    ∧ maxCountFlags.count
        < (sleeps (main maxCountFlags okTransport (maxCountFlags.count + 1)).trace).length := by
  have key : ∀ fuel, (main maxCountFlags okTransport fuel).outcome = Outcome.running
      ∧ sleeps (main maxCountFlags okTransport fuel).trace
          = List.replicate fuel (1000 * Millisecond) := by
    intro fuel
    rw [main_never_exits maxCountFlags okTransport fuel rfl (by decide) maxCountFlags_count]
    have h1 : sleeps [Event.connect (mkSession maxCountFlags),
        Event.announce maxCountFlags.count] = [] := rfl
    have h2 : sleepDuration (1000 / maxCountFlags.rate) = 1000 * Millisecond := by decide
    refine ⟨rfl, ?_⟩
    simp only [sleeps_append, sleeps_loopEvents, h1, h2, List.nil_append]
  refine ⟨key, ?_⟩
  rw [(key (maxCountFlags.count + 1)).2, List.length_replicate]
  exact Nat.lt_succ_self _

/-- C3, at the failing input `-rate 0` with a successful connect: the run
prints the announcement and then ends in the runtime panic of the division
`1000 / rate` (the deferred close runs during the panic); no configuration
error is reported. -/
theorem rate_zero_panics (fuel : Nat) :
    main zeroRateFlags okTransport fuel
      = { trace := [Event.connect (mkSession zeroRateFlags), Event.announce 1, Event.close]
          outcome := Outcome.panic "runtime error: integer divide by zero" } :=
  main_rate_zero zeroRateFlags okTransport fuel rfl rfl

/-- C4: if `Connect()` returns an error then, for every count and rate,
the run consists of the connect attempt and the fatal diagnostic only: no
`SendTrap` call, no announcement, no summary, and exit status 1. -/
theorem connect_failure_is_fatal (flags : Flags) (tr : Transport) (fuel : Nat) (err : String)
    (h : tr.connect = some err) :
    (main flags tr fuel).trace = [Event.connect (mkSession flags), Event.fatalf err]
      ∧ sentPayloads (main flags tr fuel).trace = []
      ∧ (main flags tr fuel).trace.filter Event.isAnnounce = []
      ∧ (main flags tr fuel).trace.filter Event.isSummary = []
      ∧ (main flags tr fuel).outcome = Outcome.exit 1 := by
  rw [main_connect_failed flags tr fuel err h]
  exact ⟨rfl, rfl, rfl, rfl, rfl⟩

theorem connect_failure_is_fatal_witness :
    deadTransport.connect = some "dial udp: lookup failed"
      ∧ sentPayloads (main maxCountFlags deadTransport 7).trace = []
      ∧ (main zeroRateFlags deadTransport 7).outcome = Outcome.exit 1 :=
  ⟨rfl, (connect_failure_is_fatal maxCountFlags deadTransport 7 _ rfl).2.1,
    (connect_failure_is_fatal zeroRateFlags deadTransport 7 _ rfl).2.2.2.2⟩

/-- C5, at the failing input `-count 18446744073709551615` on a transport
whose sends all fail: the loop is still running after `count + 1`
iterations, and the line logged by iteration `count + 1` carries the
wrapped counter value 0, which is not an iteration index in `1..count`. -/
theorem max_count_logs_index_zero :
    (main maxCountFlags lossyTransport (maxCountFlags.count + 1)).outcome = Outcome.running
      ∧ (loggedIndices (main maxCountFlags lossyTransport (maxCountFlags.count + 1)).trace).getLast?
          = some 0 := by
  have hw : wrapUint UintSize (maxCountFlags.count + 1) = 0 := by decide
  have h := main_never_exits_logs maxCountFlags lossyTransport maxCountFlags.count
    "request timeout" rfl (by decide) maxCountFlags_count rfl
  rw [hw] at h
  exact h

/-- C6: in every run, whatever the flags, the transport and the number of
iterations, every `SendTrap` call gets the PDU built before the loop; its
only variable binding is SnmpTrapOID.0 with type ObjectIdentifier and the
ColdStart OID as value, and its AgentAddress is the `-source-ip` flag.  When
the loop exits, that PDU has been sent `count` times. -/
theorem payload_identical (flags : Flags) (tr : Transport) (fuel : Nat) :
    sentPayloads (main flags tr fuel).trace
        = List.replicate (sentPayloads (main flags tr fuel).trace).length (mkTrapPDU flags)
      ∧ (mkTrapPDU flags).Variables
          = [{ Name := ".1.3.6.1.6.3.1.1.4.1.0", Typ := Asn1BER.ObjectIdentifier,
               Value := ".1.3.6.1.6.3.1.1.5.1" }]
      ∧ (mkTrapPDU flags).AgentAddress = flags.sourceIp
      ∧ (tr.connect = none → flags.rate ≠ 0 → flags.count < 2 ^ UintSize - 1 → flags.count < fuel →
          sentPayloads (main flags tr fuel).trace = List.replicate flags.count (mkTrapPDU flags)) := by
  refine ⟨?_, rfl, rfl, fun hc hr hn hf => (sends_eq_count flags tr fuel hc hr hn hf).2⟩
  have hrep : ∀ k, sentPayloads (main flags tr fuel).trace = List.replicate k (mkTrapPDU flags) →
      sentPayloads (main flags tr fuel).trace
        = List.replicate (sentPayloads (main flags tr fuel).trace).length (mkTrapPDU flags) := by
    intro k hk
    rw [hk, List.length_replicate]
  have h1 : sentPayloads [Event.connect (mkSession flags), Event.announce flags.count] = [] := rfl
  have h2 : ∀ c r d, sentPayloads [Event.summary c r d flags.target flags.port
      flags.community, Event.close] = [] := fun _ _ _ => rfl
  cases hc : tr.connect with
  | some err =>
    apply hrep 0
    rw [main_connect_failed flags tr fuel err hc]
    rfl
  | none =>
    by_cases hr : flags.rate = 0
    · apply hrep 0
      rw [main_rate_zero flags tr fuel hc hr]
      rfl
    · obtain ⟨k, hk | hk⟩ := main_trace_cases flags tr fuel hc hr
      · apply hrep k
        rw [hk]
        simp only [sentPayloads_append, sentPayloads_loopEvents, h1, List.nil_append]
      · apply hrep k
        rw [hk]
        simp only [sentPayloads_append, sentPayloads_loopEvents, h1, h2, List.nil_append,
          List.append_nil]

theorem payload_identical_witness :
    (okTransport.connect = none ∧ smallFlags.rate ≠ 0 ∧ smallFlags.count < 2 ^ UintSize - 1
        ∧ smallFlags.count < 4)
      ∧ sentPayloads (main smallFlags okTransport 4).trace
          = [mkTrapPDU smallFlags, mkTrapPDU smallFlags, mkTrapPDU smallFlags] :=
  ⟨⟨rfl, by decide, by decide, by decide⟩,
    (payload_identical smallFlags okTransport 4).2.2.2 rfl (by decide) (by decide) (by decide)⟩

/-- C7, at the failing input `-count 18446744073709551615`: however many
iterations the loop is given, the run is still in the loop and its trace
holds neither a summary line nor a close of the session. -/
theorem max_count_never_reports (fuel : Nat) :
    (main maxCountFlags okTransport fuel).outcome = Outcome.running
      ∧ (main maxCountFlags okTransport fuel).trace.filter Event.isSummary = []
      ∧ (main maxCountFlags okTransport fuel).trace.filter Event.isClose = [] := by
  rw [main_never_exits maxCountFlags okTransport fuel rfl (by decide) maxCountFlags_count]
  refine ⟨rfl, ?_, ?_⟩
  · simp only [List.filter_append, filter_isSummary_loopEvents, List.append_nil]
    rfl
  · simp only [List.filter_append, filter_isClose_loopEvents, List.append_nil]
    rfl

/-- C8 as stated fails: with `-rate 3 -count 1` and a send that takes no
time the loop is done after 333 ms, and `3 * 333 < 1000 * 1`. -/
theorem truncated_delay_beats_rate :
    elapsedLoopTime rate3Flags okTransport = 333 * Millisecond
      ∧ ¬ ((rate3Flags.rate : Int) * elapsedLoopTime rate3Flags okTransport
            ≥ 1000 * (rate3Flags.count : Int) * Millisecond) := by
  decide

/-- C8, amended: for every rate `R > 0`, every count `N` and all send
durations, the elapsed loop time `E` is the sum over the `N` iterations of
the send duration plus the delay `floor(1000/R)` ms, and
`R * E + N * (1000 mod R) ms >= 1000 * N ms`; when `R` divides 1000 this
is `R * E >= 1000 * N ms`. -/
theorem elapsed_lower_bound (flags : Flags) (tr : Transport)
    (_hr : 0 < flags.rate) (hn : flags.count < 2 ^ UintSize) :
    elapsedLoopTime flags tr
        = ∑ j in Finset.range flags.count,
            ((tr.sendTime j : Int) + ((1000 / flags.rate : Nat) : Int) * Millisecond)
      ∧ (flags.rate : Int) * elapsedLoopTime flags tr
            + (flags.count : Int) * ((1000 % flags.rate : Nat) : Int) * Millisecond
          ≥ 1000 * (flags.count : Int) * Millisecond
      ∧ (flags.rate ∣ 1000 →
          (flags.rate : Int) * elapsedLoopTime flags tr ≥ 1000 * (flags.count : Int) * Millisecond) := by
  have hE := elapsedLoopTime_eq flags tr hn
  have hge := elapsedAfter_ge flags.rate tr flags.count
  rw [← hE] at hge
  have hdm : (flags.rate : Int) * ((1000 / flags.rate : Nat) : Int) + ((1000 % flags.rate : Nat) : Int)
      = 1000 := by
    have := Nat.div_add_mod 1000 flags.rate
    exact_mod_cast this
  have hR : (0 : Int) ≤ (flags.rate : Int) := Int.ofNat_nonneg _
  have hmul := mul_le_mul_of_nonneg_left hge hR
  have hms : (0 : Int) ≤ (flags.count : Int) * Millisecond := by
    unfold Millisecond
    positivity
  have hbound : (flags.rate : Int) * elapsedLoopTime flags tr
      + (flags.count : Int) * ((1000 % flags.rate : Nat) : Int) * Millisecond
        ≥ 1000 * (flags.count : Int) * Millisecond := by
    have heq : (flags.rate : Int) * ((flags.count : Int) * (((1000 / flags.rate : Nat) : Int) * Millisecond))
        + (flags.count : Int) * ((1000 % flags.rate : Nat) : Int) * Millisecond
          = 1000 * (flags.count : Int) * Millisecond := by
      linear_combination ((flags.count : Int) * Millisecond) * hdm
    linarith
  refine ⟨?_, hbound, ?_⟩
  · rw [hE, elapsedAfter_eq_sum]
  · intro hdvd
    have hmod : 1000 % flags.rate = 0 := Nat.mod_eq_zero_of_dvd hdvd
    rw [hmod] at hbound
    simpa using hbound

theorem elapsed_lower_bound_witness :
    (0 < smallFlags.rate ∧ smallFlags.count < 2 ^ UintSize ∧ smallFlags.rate ∣ 1000)
      ∧ (smallFlags.rate : Int) * elapsedLoopTime smallFlags lossyTransport
          ≥ 1000 * (smallFlags.count : Int) * Millisecond :=
  ⟨⟨by decide, by decide, by decide⟩,
    (elapsed_lower_bound smallFlags lossyTransport (by decide) (by decide)).2.2 (by decide)⟩

/-- C9: in every run the session is configured with port `p mod 65536`,
where `p` is the `-port` flag; a run that returns normally prints one
summary line, which reports `p` itself; the two are equal exactly when
`p < 65536`. -/
theorem port_truncated_in_session (flags : Flags) (tr : Transport) (fuel : Nat) :
    sessionPorts (main flags tr fuel).trace = [flags.port % 65536]
      ∧ ((main flags tr fuel).outcome = Outcome.exit 0 →
          summaryPorts (main flags tr fuel).trace = [flags.port])
      ∧ (flags.port % 65536 = flags.port ↔ flags.port < 65536) := by
  have h1 : sessionPorts [Event.connect (mkSession flags), Event.announce flags.count]
      = [flags.port % 65536] := rfl
  have h2 : ∀ c r d, sessionPorts [Event.summary c r d flags.target flags.port
      flags.community, Event.close] = [] := fun _ _ _ => rfl
  have h3 : summaryPorts [Event.connect (mkSession flags), Event.announce flags.count] = [] := rfl
  have h4 : ∀ c r d, summaryPorts [Event.summary c r d flags.target flags.port
      flags.community, Event.close] = [flags.port] := fun _ _ _ => rfl
  have hiff : flags.port % 65536 = flags.port ↔ flags.port < 65536 := by
    constructor
    · intro h
      rw [← h]
      exact Nat.mod_lt _ (by decide)
    · exact Nat.mod_eq_of_lt
  cases hc : tr.connect with
  | some err =>
    rw [main_connect_failed flags tr fuel err hc]
    exact ⟨rfl, fun h => absurd h (by simp), hiff⟩
  | none =>
    by_cases hr : flags.rate = 0
    · rw [main_rate_zero flags tr fuel hc hr]
      exact ⟨rfl, fun h => absurd h (by simp), hiff⟩
    · obtain ⟨k, hk | hk⟩ := main_trace_cases flags tr fuel hc hr
      · rw [hk]
        refine ⟨?_, fun h => absurd h (by simp), hiff⟩
        simp only [sessionPorts_append, sessionPorts_loopEvents, h1, List.append_nil]
      · rw [hk]
        refine ⟨?_, fun _ => ?_, hiff⟩
        · simp only [sessionPorts_append, sessionPorts_loopEvents, h1, h2, List.append_nil]
        · simp only [summaryPorts_append, summaryPorts_loopEvents, h3, h4, List.append_nil,
            List.nil_append]

theorem port_truncated_in_session_witness :
    (main bigPortFlags okTransport 2).outcome = Outcome.exit 0
      ∧ sessionPorts (main bigPortFlags okTransport 2).trace = [162]
      ∧ summaryPorts (main bigPortFlags okTransport 2).trace = [65698] :=
  ⟨by decide, (port_truncated_in_session bigPortFlags okTransport 2).1,
    (port_truncated_in_session bigPortFlags okTransport 2).2.1 (by decide)⟩

/-- C10: on `w`-bit unsigned integers, for `count < 2 ^ w - 1` the loop
exits after exactly `count` iterations with `i = count + 1`, the counter
being `k + 1 < 2 ^ w` after each of the first `k <= count` iterations (no
wrap); for `count = 2 ^ w - 1` the increment takes `i = 2 ^ w - 1` to 0,
every reachable loop state satisfies `i <= count`, and the loop is still
running after any number of iterations. -/
theorem loop_exits_iff_below_max (w : Nat) (pdu : SnmpTrap) (sleep : Nat) (tr : Transport)
    (pre : List Event) :
    (∀ count fuel, count < 2 ^ w - 1 → count < fuel →
        (runLoop w count pdu sleep tr fuel (loopInit w pre)).2 = true
          ∧ (runLoop w count pdu sleep tr fuel (loopInit w pre)).1.i = count + 1
          ∧ (runLoop w count pdu sleep tr fuel (loopInit w pre)).1.calls = count
          ∧ ∀ k, k ≤ count →
              (runLoop w count pdu sleep tr k (loopInit w pre)).2 = false
                ∧ (runLoop w count pdu sleep tr k (loopInit w pre)).1.i = k + 1
                ∧ k + 1 < 2 ^ w)
      ∧ (∀ fuel,
          (runLoop w (2 ^ w - 1) pdu sleep tr fuel (loopInit w pre)).2 = false
            ∧ (runLoop w (2 ^ w - 1) pdu sleep tr fuel (loopInit w pre)).1.i ≤ 2 ^ w - 1)
      ∧ (∀ s : LoopState, s.i = 2 ^ w - 1 →
          (loopStep w (2 ^ w - 1) pdu sleep tr s).map LoopState.i = some 0) := by
  refine ⟨?_, ?_, ?_⟩
  · intro count fuel hc hf
    rw [runLoop_exits w count pdu sleep tr pre fuel hc hf]
    refine ⟨rfl, ?_, rfl, ?_⟩
    · exact wrapUint_of_lt (by omega)
    · intro k hk
      rw [runLoop_running w count pdu sleep tr pre k (fun j hj => by
        rw [wrapUint_of_lt (by omega)]; omega)]
      exact ⟨rfl, wrapUint_of_lt (by omega), by omega⟩
  · intro fuel
    rw [runLoop_never_exits w pdu sleep tr pre fuel]
    exact ⟨rfl, wrapUint_le_max w (fuel + 1)⟩
  · intro s hs
    have hpos : 0 < 2 ^ w := Nat.pos_pow_of_pos w (by decide)
    have hwrap : wrapUint w (s.i + 1) = 0 := by
      unfold wrapUint
      rw [hs, Nat.sub_add_cancel hpos, Nat.mod_self]
    rw [hs] at hwrap
    unfold loopStep
    simp [hs, hwrap]

theorem loop_exits_iff_below_max_witness :
    ((3 : Nat) < 2 ^ 64 - 1 ∧ (3 : Nat) < 4)
      ∧ (runLoop 64 3 (mkTrapPDU smallFlags) 250 okTransport 4 (loopInit 64 [])).2 = true
      ∧ (runLoop 64 3 (mkTrapPDU smallFlags) 250 okTransport 4 (loopInit 64 [])).1.i = 3 + 1
      ∧ (loopStep 64 (2 ^ 64 - 1) (mkTrapPDU smallFlags) 250 okTransport
            { i := 18446744073709551615, calls := 0, clock := 0, trace := [] }).map LoopState.i
          = some 0 :=
  ⟨⟨by decide, by decide⟩,
    ((loop_exits_iff_below_max 64 (mkTrapPDU smallFlags) 250 okTransport []).1 3 4
      (by decide) (by decide)).1,
    ((loop_exits_iff_below_max 64 (mkTrapPDU smallFlags) 250 okTransport []).1 3 4
      (by decide) (by decide)).2.1,
    (loop_exits_iff_below_max 64 (mkTrapPDU smallFlags) 250 okTransport []).2.2 _ (by decide)⟩

end SnmpLoad
